import Mathlib

/-!
Shallow embedding of the request handlers in `server.js` of the
NODE-CRUD-LIBROS repository: the book CRUD handlers (`PUT /libros/:id`,
`DELETE /libros/:id`) with their inline ownership check, and the
authentication handlers (`POST /usuarios/registro`, `POST /usuarios/login`).

JavaScript dynamic values that can appear in a JSON request body are
modelled by `JSVal`; the `Number(x)` coercion is modelled by
`toNumber : JSVal → Option Int`, with `none` playing the role of `NaN`
(strict equality `===` on numbers never holds when one side is `NaN`).
The MySQL tables are modelled as Lean lists of rows; each handler is a
pure function from the table state and the request to the new table state
and the HTTP response.  The `bcrypt` library is an external black box and
is modelled by a parameter structure `Bcrypt` carrying its two operations.
-/

namespace NodeCrud

/-- A JavaScript value as it can occur in a parsed JSON request body
(or as `undefined` when the field is absent).  Numbers are modelled as
integers, which covers every value the claims are about. -/
inductive JSVal where
  | vUndefined : JSVal
  | vNull : JSVal
  | vNum : Int → JSVal
  | vStr : String → JSVal
deriving DecidableEq, Repr

/-- JavaScript truthiness of a `JSVal`, as used by `if (usuarioId)` /
`if (!usuarioId)` / `if (!correo || !contrasena)` in `server.js`:
`undefined`, `null`, the number `0` and the empty string are falsy. -/
def truthy : JSVal → Bool
  | .vUndefined => false
  | .vNull => false
  | .vNum n => n != 0
  | .vStr s => s != ""

/-- Decimal value of a non-empty run of digit characters; `none` as soon
as a non-digit appears. -/
def parseDigitsAux : List Char → Nat → Option Nat
  | [], acc => some acc
  | c :: cs, acc =>
    if c.isDigit then parseDigitsAux cs (acc * 10 + (c.toNat - 48)) else none

/-- Decimal value of a list of characters: `none` when empty or when any
character is not a digit. -/
def parseDigits : List Char → Option Nat
  | [] => none
  | c :: cs => parseDigitsAux (c :: cs) 0

/-- JavaScript `Number(string)` restricted to the shapes relevant here:
the empty string coerces to `0`, an optionally `-`-signed digit string
coerces to the corresponding integer, and every other string coerces to
`NaN` (represented by `none`). -/
def strToNumber (s : String) : Option Int :=
  if s = "" then some 0
  else
    match s.toList with
    | '-' :: rest => (parseDigits rest).map (fun n => -(n : Int))
    | cs => (parseDigits cs).map (fun n => (n : Int))

/-- JavaScript `Number(x)` on a `JSVal`: `Number(undefined)` is `NaN`,
`Number(null)` is `0`, a number is itself, a string is parsed. -/
def toNumber : JSVal → Option Int
  | .vUndefined => none
  | .vNull => some 0
  | .vNum n => some n
  | .vStr s => strToNumber s

/-- Strict JavaScript equality `===` between two results of `Number(_)`:
two actual numbers compare by value, and `NaN` (`none`) is equal to
nothing, not even itself. -/
def jsNumEq : Option Int → Option Int → Bool
  | some a, some b => a == b
  | _, _ => false

/-- How a stored `usuario_id` column value (SQL `NULL` or an integer)
surfaces as a JavaScript value in a row returned by the mysql2 driver. -/
def storedToJS : Option Int → JSVal
  | none => .vNull
  | some n => .vNum n

/-- An HTTP response consisting of a status code and the `mensaje`
field of the JSON body (the shape of every book-handler response). -/
structure SimpleResp where
  status : Nat
  mensaje : String
deriving DecidableEq, Repr

/-- A row of the `libros` table: `id`, `titulo`, `autor`, `anio`,
`usuario_id` (the owner, nullable).  The three content columns hold
whatever JavaScript value the driver wrote, so they are `JSVal`. -/
structure Libro where
  id : Int
  titulo : JSVal
  autor : JSVal
  anio : JSVal
  usuario_id : Option Int
deriving DecidableEq, Repr

/-- `SELECT ... FROM libros WHERE id = ?` returning at most one row
(id is the primary key, so the first match is the only match). -/
def findLibro (db : List Libro) (id : Int) : Option Libro :=
  db.find? (fun b => b.id == id)

/-- `UPDATE libros SET titulo=?, autor=?, anio=? WHERE id=?`: every row
whose id matches gets the three content columns overwritten; all other
rows and all other columns are untouched. -/
def updateLibros (db : List Libro) (id : Int) (t a y : JSVal) : List Libro :=
  db.map (fun b => if b.id == id then { b with titulo := t, autor := a, anio := y } else b)

/-- `DELETE FROM libros WHERE id = ?`. -/
def deleteLibros (db : List Libro) (id : Int) : List Libro :=
  db.filter (fun b => b.id != id)

/-- The body of a `PUT /libros/:id` request:
`const { titulo, autor, anio, usuarioId } = req.body`. -/
structure PutReq where
  titulo : JSVal
  autor : JSVal
  anio : JSVal
  usuarioId : JSVal
deriving DecidableEq, Repr

/-- The spec's Ownership Guard, as the code inlines it in both mutation
handlers: look the book up; missing book is `NotFound`; otherwise compare
`Number(rows[0].usuario_id) !== Number(usuarioId)` — unequal (including
the `NaN` cases) is `Denied`, equal is `Allowed`. -/
inductive GuardResult where
  | Allowed : GuardResult
  | Denied : GuardResult
  | NotFound : GuardResult
deriving DecidableEq, Repr

/-- `checkOwnership(bookId, claimedUserId)` for a present claimed id:
the two `SELECT usuario_id ... / Number(...) !== Number(...)` steps shared
by the update and delete handlers. -/
def checkOwnership (db : List Libro) (bookId : Int) (claimed : JSVal) : GuardResult :=
  match findLibro db bookId with
  | none => .NotFound
  | some b =>
    if jsNumEq (toNumber (storedToJS b.usuario_id)) (toNumber claimed) then .Allowed
    else .Denied

/-- The `app.put("/libros/:id")` handler.  If `usuarioId` is truthy the
ownership check runs first (404 when the book is missing, 403 when the
coerced ids differ); otherwise, and after a passed check, the UPDATE runs
unconditionally and the handler answers 200 `"Libro actualizado"`. -/
def putLibro (db : List Libro) (id : Int) (req : PutReq) : List Libro × SimpleResp :=
  if truthy req.usuarioId then
    match findLibro db id with
    | none => (db, ⟨404, "Libro no encontrado"⟩)
    | some b =>
      if jsNumEq (toNumber (storedToJS b.usuario_id)) (toNumber req.usuarioId) then
        (updateLibros db id req.titulo req.autor req.anio, ⟨200, "Libro actualizado"⟩)
      else
        (db, ⟨403, "No autorizado para actualizar este libro"⟩)
  else
    (updateLibros db id req.titulo req.autor req.anio, ⟨200, "Libro actualizado"⟩)

/-- The `app.delete("/libros/:id")` handler.  A falsy `usuarioId` in the
body is rejected with 400 before any store access; then the same
ownership check as in the update handler gates the DELETE. -/
def deleteLibro (db : List Libro) (id : Int) (usuarioId : JSVal) : List Libro × SimpleResp :=
  if !truthy usuarioId then
    (db, ⟨400, "Se requiere usuarioId para eliminar"⟩)
  else
    match findLibro db id with
    | none => (db, ⟨404, "Libro no encontrado"⟩)
    | some b =>
      if jsNumEq (toNumber (storedToJS b.usuario_id)) (toNumber usuarioId) then
        (deleteLibros db id, ⟨200, "Libro eliminado"⟩)
      else
        (db, ⟨403, "No autorizado para eliminar este libro"⟩)

/-! ### Authentication handlers -/

/-- The `bcrypt` library, an external dependency: `hash` (with its fixed
cost factor 10 already applied) and `compare`.  Handlers are parameterized
over it; nothing about the handlers depends on its internals. -/
structure Bcrypt where
  hash : String → String
  compare : String → String → Bool

/-- A row of the `usuarios` table: `id`, `correo` (unique email),
`contrasena` (the stored password hash), `nombre` (nullable). -/
structure Usuario where
  id : Int
  correo : String
  contrasena : String
  nombre : Option String
deriving DecidableEq, Repr

/-- `SELECT ... FROM usuarios WHERE correo = ?`: all rows whose email
matches. -/
def selectByCorreo (db : List Usuario) (correo : String) : List Usuario :=
  db.filter (fun u => u.correo == correo)

/-- The `usuarios` table together with the auto-increment counter that
produces `result.insertId`. -/
structure UsersState where
  usuarios : List Usuario
  nextId : Int
deriving DecidableEq, Repr

/-- Response of the registration handler: status, `mensaje`, and the
`id` field present on success. -/
structure RegistroResp where
  status : Nat
  mensaje : String
  id : Option Int
deriving DecidableEq, Repr

/-- The `app.post("/usuarios/registro")` handler.  The request-body
fields `correo` and `contrasena` are strings (a falsy string is the empty
one); `nombre || null` is modelled by an `Option String` argument.
`insertThrows` models the store throwing on the INSERT (e.g. the unique
index on `correo` firing after the check passed); the surrounding
try/catch maps any such throw to a 500 response. -/
def registro (bc : Bcrypt) (insertThrows : Bool) (st : UsersState)
    (correo contrasena : String) (nombre : Option String) :
    UsersState × RegistroResp :=
  if correo = "" ∨ contrasena = "" then
    (st, ⟨400, "Correo y contraseña son obligatorios", none⟩)
  else if (selectByCorreo st.usuarios correo).length > 0 then
    (st, ⟨409, "El correo ya está registrado", none⟩)
  else if insertThrows then
    (st, ⟨500, "Error en el registro", none⟩)
  else
    ({ usuarios := st.usuarios ++ [⟨st.nextId, correo, bc.hash contrasena, nombre⟩],
       nextId := st.nextId + 1 },
     ⟨200, "Usuario registrado correctamente", some st.nextId⟩)

/-- A field value of the JSON user object returned by login. -/
inductive FieldVal where
  | fInt : Int → FieldVal
  | fStr : String → FieldVal
  | fNull : FieldVal
deriving DecidableEq, Repr

/-- The row object produced by
`SELECT id, correo, nombre, contrasena FROM usuarios WHERE correo = ?`,
as an ordered field list. -/
def userRecord (u : Usuario) : List (String × FieldVal) :=
  [("id", .fInt u.id), ("correo", .fStr u.correo),
   ("nombre", match u.nombre with | some n => .fStr n | none => .fNull),
   ("contrasena", .fStr u.contrasena)]

/-- `delete user.contrasena`: remove the field from the object. -/
def deleteField (rec : List (String × FieldVal)) (k : String) :
    List (String × FieldVal) :=
  rec.filter (fun p => p.1 != k)

/-- Response of the login handler: status, `mensaje`, and the `usuario`
object present on success. -/
structure LoginResp where
  status : Nat
  mensaje : String
  usuario : Option (List (String × FieldVal))
deriving DecidableEq, Repr

/-- The `app.post("/usuarios/login")` handler: missing fields give 400,
an unknown email and a failed `bcrypt.compare` both give 401 with the
same message, and on success the user row is returned with the
`contrasena` field deleted. -/
def login (bc : Bcrypt) (db : List Usuario) (correo contrasena : String) :
    LoginResp :=
  if correo = "" ∨ contrasena = "" then
    ⟨400, "Correo y contraseña son obligatorios", none⟩
  else
    match (selectByCorreo db correo).head? with
    | none => ⟨401, "Correo o contraseña incorrectos", none⟩
    | some u =>
      if bc.compare contrasena u.contrasena then
        ⟨200, "Login exitoso", some (deleteField (userRecord u) "contrasena")⟩
      else
        ⟨401, "Correo o contraseña incorrectos", none⟩

/-- A concrete instance of the hashing interface, used only to evaluate
the handlers at concrete inputs. -/
def bcryptTest : Bcrypt where
  hash := fun s => String.append "h:" s
  compare := fun p h => h == String.append "h:" p

/-! ### Helper lemmas -/

/-- When no row matches the id, the UPDATE statement is a no-op. -/
theorem updateLibros_of_findLibro_none (db : List Libro) (id : Int)
    (t a y : JSVal) (h : findLibro db id = none) :
    updateLibros db id t a y = db := by
  rw [findLibro, List.find?_eq_none] at h
  induction db with
  | nil => rfl
  | cons b rest ih =>
    have hb : ¬ (b.id == id) = true := h b (List.mem_cons_self b rest)
    simp only [updateLibros, List.map_cons]
    rw [if_neg hb]
    have := ih (fun x hx => h x (List.mem_cons_of_mem b hx))
    simp only [updateLibros] at this
    rw [this]

/-- A value whose `Number(_)` coercion is an actual non-zero number is
truthy. -/
theorem truthy_of_toNumber_ne_zero (v : JSVal) (m : Int)
    (h : toNumber v = some m) (hm : m ≠ 0) : truthy v = true := by
  cases v with
  | vUndefined => simp [toNumber] at h
  | vNull =>
    simp only [toNumber, Option.some.injEq] at h
    exact absurd h.symm hm
  | vNum n =>
    simp only [toNumber, Option.some.injEq] at h
    subst h
    simp [truthy, hm]
  | vStr s =>
    by_cases hs : s = ""
    · subst hs
      have h0 : toNumber (JSVal.vStr "") = some 0 := by decide
      rw [h0, Option.some.injEq] at h
      exact absurd h.symm hm
    · simp [truthy, hs]

/-- Strict equality against a `NaN` coercion result never holds. -/
theorem jsNumEq_none_right (a : Option Int) : jsNumEq a none = false := by
  cases a <;> rfl

/-! ### Claim theorems -/

/-- C1: For every update request (`PUT /libros/:id`) whose body omits
`usuarioId`, the ownership check is bypassed entirely and the handler
answers 200 "Libro actualizado", whatever the stored owner of the book
is; when no book with that id exists the UPDATE affects zero rows, the
table is unchanged, and the response is still 200. -/
theorem put_absent_owner_bypasses_guard (db : List Libro) (id : Int)
    (t a y : JSVal) :
    (putLibro db id ⟨t, a, y, JSVal.vUndefined⟩).2 = ⟨200, "Libro actualizado"⟩
    ∧ (findLibro db id = none →
        putLibro db id ⟨t, a, y, JSVal.vUndefined⟩ = (db, ⟨200, "Libro actualizado"⟩)) := by
  constructor
  · simp [putLibro, truthy]
  · intro h
    simp [putLibro, truthy, updateLibros_of_findLibro_none db id t a y h]

/-- Witness for C1: an update of the non-existent book id 3 on an empty
table, with no `usuarioId` in the body, leaves the table unchanged and
reports success. -/
theorem put_absent_owner_bypasses_guard_witness :
    (putLibro [] 3 ⟨JSVal.vStr "t", JSVal.vStr "a", JSVal.vNum 2020, JSVal.vUndefined⟩).2
        = ⟨200, "Libro actualizado"⟩
    ∧ putLibro [] 3 ⟨JSVal.vStr "t", JSVal.vStr "a", JSVal.vNum 2020, JSVal.vUndefined⟩
        = ([], ⟨200, "Libro actualizado"⟩) :=
  ⟨(put_absent_owner_bypasses_guard [] 3 (JSVal.vStr "t") (JSVal.vStr "a") (JSVal.vNum 2020)).1,
   (put_absent_owner_bypasses_guard [] 3 (JSVal.vStr "t") (JSVal.vStr "a") (JSVal.vNum 2020)).2
     (by decide)⟩

/-- C2: For a supplied (truthy) claimed owner id on an existing book, the
ownership check of both mutation handlers allows exactly when the numeric
coercions of the stored and the claimed owner id are strictly equal: the
guard answers `Allowed` iff they coerce to the same number, the update
and delete handlers answer 200 iff they do and 403 otherwise, a claimed
value coercing to `NaN` is always `Denied`, and the string "5" compares
equal to the stored number 5. -/
theorem guard_is_numeric_coercion_equality
    (db : List Libro) (id : Int) (b : Libro) (claimed t a y : JSVal)
    (hfind : findLibro db id = some b) (htruthy : truthy claimed = true) :
    (checkOwnership db id claimed
        = if jsNumEq (toNumber (storedToJS b.usuario_id)) (toNumber claimed) then
            GuardResult.Allowed else GuardResult.Denied)
    ∧ ((putLibro db id ⟨t, a, y, claimed⟩).2.status
        = if jsNumEq (toNumber (storedToJS b.usuario_id)) (toNumber claimed) then 200 else 403)
    ∧ ((deleteLibro db id claimed).2.status
        = if jsNumEq (toNumber (storedToJS b.usuario_id)) (toNumber claimed) then 200 else 403)
    ∧ (toNumber claimed = none → checkOwnership db id claimed = GuardResult.Denied)
    ∧ jsNumEq (toNumber (storedToJS (some 5))) (toNumber (JSVal.vStr "5")) = true := by
  refine ⟨?_, ?_, ?_, fun hnan => ?_, by decide⟩
  · rw [checkOwnership, hfind]
  · simp only [putLibro, htruthy, if_true, hfind]
    split <;> simp
  · simp only [deleteLibro, htruthy, Bool.not_true, Bool.false_eq_true, if_false, hfind]
    split <;> simp
  · simp [checkOwnership, hfind, hnan, jsNumEq_none_right]

/-- Witness for C2: on a book with stored owner 5, the claimed string
"5" is allowed. -/
theorem guard_is_numeric_coercion_equality_witness :
    checkOwnership [⟨1, JSVal.vNull, JSVal.vNull, JSVal.vNull, some 5⟩] 1 (JSVal.vStr "5")
      = GuardResult.Allowed := by
  have h := guard_is_numeric_coercion_equality
    [⟨1, JSVal.vNull, JSVal.vNull, JSVal.vNull, some 5⟩] 1
    ⟨1, JSVal.vNull, JSVal.vNull, JSVal.vNull, some 5⟩ (JSVal.vStr "5")
    JSVal.vNull JSVal.vNull JSVal.vNull (by decide) (by decide)
  rw [h.1]
  decide

/-- C3: The delete handler: a falsy (in particular absent) `usuarioId`
gives 400 with no row deleted, whatever the table holds (including an
ownerless target); with a truthy `usuarioId`, a missing book gives 404;
a coercion mismatch gives 403 with no row deleted; a coercion match
deletes the row and gives 200. -/
theorem delete_error_handling (db : List Libro) (id : Int) (v : JSVal) :
    (truthy v = false →
       deleteLibro db id v = (db, ⟨400, "Se requiere usuarioId para eliminar"⟩))
    ∧ (truthy v = true → findLibro db id = none →
       deleteLibro db id v = (db, ⟨404, "Libro no encontrado"⟩))
    ∧ (∀ b, truthy v = true → findLibro db id = some b →
       jsNumEq (toNumber (storedToJS b.usuario_id)) (toNumber v) = false →
       deleteLibro db id v = (db, ⟨403, "No autorizado para eliminar este libro"⟩))
    ∧ (∀ b, truthy v = true → findLibro db id = some b →
       jsNumEq (toNumber (storedToJS b.usuario_id)) (toNumber v) = true →
       deleteLibro db id v = (deleteLibros db id, ⟨200, "Libro eliminado"⟩)) := by
  refine ⟨fun hf => ?_, fun ht hn => ?_, fun b ht hf hne => ?_, fun b ht hf heq => ?_⟩
  · simp [deleteLibro, hf]
  · simp [deleteLibro, ht, hn]
  · simp [deleteLibro, ht, hf, hne]
  · simp [deleteLibro, ht, hf, heq]

/-- Witness for C3: deleting the ownerless book 1 without a `usuarioId`
(here: an absent field) is rejected with 400 and deletes nothing. -/
theorem delete_error_handling_witness :
    deleteLibro [⟨1, JSVal.vNull, JSVal.vNull, JSVal.vNull, none⟩] 1 JSVal.vUndefined
      = ([⟨1, JSVal.vNull, JSVal.vNull, JSVal.vNull, none⟩],
         ⟨400, "Se requiere usuarioId para eliminar"⟩) :=
  (delete_error_handling [⟨1, JSVal.vNull, JSVal.vNull, JSVal.vNull, none⟩] 1
    JSVal.vUndefined).1 (by decide)

/-- C4: Registering a fresh email (email and password present) answers
200 with the generated id, and a second registration of the same email
(any password, any name, whether or not its INSERT would throw) answers
409 and leaves the users table exactly as the first call left it. -/
theorem duplicate_registration_rejected
    (bc : Bcrypt) (st : UsersState) (e p p2 : String) (n n2 : Option String) (thr2 : Bool)
    (he : e ≠ "") (hp : p ≠ "") (hp2 : p2 ≠ "")
    (hfresh : selectByCorreo st.usuarios e = []) :
    (registro bc false st e p n).2 = ⟨200, "Usuario registrado correctamente", some st.nextId⟩
    ∧ registro bc thr2 (registro bc false st e p n).1 e p2 n2 =
        ((registro bc false st e p n).1, ⟨409, "El correo ya está registrado", none⟩) := by
  have h1 : registro bc false st e p n =
      ({ usuarios := st.usuarios ++ [⟨st.nextId, e, bc.hash p, n⟩], nextId := st.nextId + 1 },
       ⟨200, "Usuario registrado correctamente", some st.nextId⟩) := by
    simp [registro, he, hp, hfresh]
  have hsel : selectByCorreo (st.usuarios ++ [⟨st.nextId, e, bc.hash p, n⟩]) e
      = [⟨st.nextId, e, bc.hash p, n⟩] := by
    simp only [selectByCorreo] at hfresh ⊢
    rw [List.filter_append, hfresh]
    simp
  refine ⟨by rw [h1], ?_⟩
  rw [h1]
  simp [registro, he, hp2, hsel]

/-- Witness for C4: registering "a@b" twice into an empty table; the
second call answers 409 and leaves the one-row table unchanged. -/
theorem duplicate_registration_rejected_witness :
    registro bcryptTest false (registro bcryptTest false ⟨[], 1⟩ "a@b" "pw" none).1 "a@b" "pw2" none
      = ((registro bcryptTest false ⟨[], 1⟩ "a@b" "pw" none).1,
         ⟨409, "El correo ya está registrado", none⟩) :=
  (duplicate_registration_rejected bcryptTest ⟨[], 1⟩ "a@b" "pw" "pw2" none none false
    (by decide) (by decide) (by decide) (by decide)).2

/-- C5 counterexample: with an empty users table (so the by-email check
finds no row) and the INSERT throwing (the unique-key case), the handler
answers the generic 500 "Error en el registro", not 409. -/
theorem registro_insert_throw_not_conflict :
    (registro bcryptTest true ⟨[], 1⟩ "a@b" "pw" none).2
      = ⟨500, "Error en el registro", none⟩
    ∧ (registro bcryptTest true ⟨[], 1⟩ "a@b" "pw" none).2.status ≠ 409 := by
  decide

/-- C5 (amended): when the by-email check finds no row and the INSERT
then throws (e.g. the store's unique index firing), the try/catch maps
the failure to the generic internal 500 response, leaving the state
unchanged — the failure is not surfaced as DuplicateEmail (409). -/
theorem registro_insert_throw_gives_500
    (bc : Bcrypt) (st : UsersState) (e p : String) (n : Option String)
    (he : e ≠ "") (hp : p ≠ "") (hfresh : selectByCorreo st.usuarios e = []) :
    registro bc true st e p n = (st, ⟨500, "Error en el registro", none⟩) := by
  simp [registro, he, hp, hfresh]

/-- Witness for C5's amended theorem at a concrete fresh registration. -/
theorem registro_insert_throw_gives_500_witness :
    registro bcryptTest true ⟨[], 1⟩ "a@b" "pw" none
      = (⟨[], 1⟩, ⟨500, "Error en el registro", none⟩) :=
  registro_insert_throw_gives_500 bcryptTest ⟨[], 1⟩ "a@b" "pw" none
    (by decide) (by decide) (by decide)

/-- C6: A login with a registered email but a password rejected by
`bcrypt.compare`, and a login with an email registered to no user (all
fields present), produce literally the same response: status 401 with
the identical message "Correo o contraseña incorrectos" and no user
object. -/
theorem login_failure_indistinguishable
    (bc : Bcrypt) (db : List Usuario) (e1 p1 e2 p2 : String) (u : Usuario)
    (he1 : e1 ≠ "") (hp1 : p1 ≠ "")
    (hfound : (selectByCorreo db e1).head? = some u)
    (hwrong : bc.compare p1 u.contrasena = false)
    (he2 : e2 ≠ "") (hp2 : p2 ≠ "")
    (habsent : selectByCorreo db e2 = []) :
    login bc db e1 p1 = login bc db e2 p2
    ∧ login bc db e1 p1 = ⟨401, "Correo o contraseña incorrectos", none⟩ := by
  have h1 : login bc db e1 p1 = ⟨401, "Correo o contraseña incorrectos", none⟩ := by
    simp [login, he1, hp1, hfound, hwrong]
  have h2 : login bc db e2 p2 = ⟨401, "Correo o contraseña incorrectos", none⟩ := by
    simp [login, he2, hp2, habsent]
  exact ⟨h1.trans h2.symm, h1⟩

/-- Witness for C6: wrong password for the registered "a@b" versus a
login for the unregistered "c@d" give the same response. -/
theorem login_failure_indistinguishable_witness :
    login bcryptTest [⟨1, "a@b", "h:pw", none⟩] "a@b" "wrong"
      = login bcryptTest [⟨1, "a@b", "h:pw", none⟩] "c@d" "pw" :=
  (login_failure_indistinguishable bcryptTest [⟨1, "a@b", "h:pw", none⟩]
    "a@b" "wrong" "c@d" "pw" ⟨1, "a@b", "h:pw", none⟩
    (by decide) (by decide) (by decide) (by decide) (by decide) (by decide) (by decide)).1

/-- C7: Registering a fresh non-empty email with a non-empty password
and then logging in with the same credentials succeeds: registration
answers 200 with the generated id, login answers 200, and the returned
user object has exactly the fields id, correo and nombre — in particular
no password or password-hash field. -/
theorem register_then_login_roundtrip
    (bc : Bcrypt) (st : UsersState) (e p : String) (n : Option String)
    (he : e ≠ "") (hp : p ≠ "")
    (hfresh : selectByCorreo st.usuarios e = [])
    (hbc : bc.compare p (bc.hash p) = true) :
    (registro bc false st e p n).2 = ⟨200, "Usuario registrado correctamente", some st.nextId⟩
    ∧ ∃ rec, login bc (registro bc false st e p n).1.usuarios e p
          = ⟨200, "Login exitoso", some rec⟩
        ∧ rec.map Prod.fst = ["id", "correo", "nombre"]
        ∧ "contrasena" ∉ rec.map Prod.fst := by
  have h1 : registro bc false st e p n =
      ({ usuarios := st.usuarios ++ [⟨st.nextId, e, bc.hash p, n⟩], nextId := st.nextId + 1 },
       ⟨200, "Usuario registrado correctamente", some st.nextId⟩) := by
    simp [registro, he, hp, hfresh]
  have hsel : selectByCorreo (st.usuarios ++ [⟨st.nextId, e, bc.hash p, n⟩]) e
      = [⟨st.nextId, e, bc.hash p, n⟩] := by
    simp only [selectByCorreo] at hfresh ⊢
    rw [List.filter_append, hfresh]
    simp
  refine ⟨by rw [h1], deleteField (userRecord ⟨st.nextId, e, bc.hash p, n⟩) "contrasena",
    ?_, ?_, ?_⟩
  · rw [h1]
    simp [login, he, hp, hsel, hbc]
  · cases n <;> rfl
  · cases n <;> simp [deleteField, userRecord]

/-- Witness for C7: register "a@b"/"pw" into an empty table, then log in
with the same credentials; both calls succeed. -/
theorem register_then_login_roundtrip_witness :
    (registro bcryptTest false ⟨[], 1⟩ "a@b" "pw" none).2
        = ⟨200, "Usuario registrado correctamente", some 1⟩
    ∧ (login bcryptTest (registro bcryptTest false ⟨[], 1⟩ "a@b" "pw" none).1.usuarios
        "a@b" "pw").status = 200 := by
  have h := register_then_login_roundtrip bcryptTest ⟨[], 1⟩ "a@b" "pw" none
    (by decide) (by decide) (by decide) (by decide)
  obtain ⟨h1, rec, hlogin, -, -⟩ := h
  exact ⟨h1, by rw [hlogin]⟩

/-- C8: Whenever an update request reaches the mutation step (the
handler answers 200), the table keeps its length, and each row keeps its
id and its stored owner; rows with a different id are completely
unchanged, and the targeted rows get exactly the body's titulo, autor
and anio. -/
theorem update_frame (db : List Libro) (id : Int) (req : PutReq)
    (h200 : (putLibro db id req).2.status = 200) :
    (putLibro db id req).1.length = db.length
    ∧ ∀ (i : Nat) (b : Libro), db[i]? = some b →
        ∃ c, (putLibro db id req).1[i]? = some c
          ∧ c.id = b.id ∧ c.usuario_id = b.usuario_id
          ∧ (b.id ≠ id → c = b)
          ∧ (b.id = id → c.titulo = req.titulo ∧ c.autor = req.autor ∧ c.anio = req.anio) := by
  have hmut : (putLibro db id req).1 = updateLibros db id req.titulo req.autor req.anio := by
    by_cases ht : truthy req.usuarioId
    · cases hf : findLibro db id with
      | none => simp [putLibro, ht, hf] at h200
      | some b =>
        by_cases heq : jsNumEq (toNumber (storedToJS b.usuario_id)) (toNumber req.usuarioId) = true
        · simp [putLibro, ht, hf, heq]
        · simp [putLibro, ht, hf, heq] at h200
    · simp [putLibro, ht]
  rw [hmut]
  constructor
  · simp [updateLibros]
  · intro i b hb
    refine ⟨if b.id == id then
        { b with titulo := req.titulo, autor := req.autor, anio := req.anio } else b,
      ?_, ?_, ?_, fun hne => ?_, fun hid => ?_⟩
    · simp [updateLibros, List.getElem?_map, hb]
    · split <;> rfl
    · split <;> rfl
    · rw [if_neg (by simpa using hne)]
    · rw [if_pos (by simpa using hid)]
      exact ⟨rfl, rfl, rfl⟩

/-- Witness for C8: updating book 1 (stored owner 5) with claimed owner
5; the table keeps one row and the row keeps its stored owner. -/
theorem update_frame_witness :
    (putLibro [⟨1, JSVal.vNull, JSVal.vNull, JSVal.vNull, some 5⟩] 1
        ⟨JSVal.vStr "t", JSVal.vStr "a", JSVal.vNum 2020, JSVal.vNum 5⟩).1.length = 1
    ∧ ∃ c, (putLibro [⟨1, JSVal.vNull, JSVal.vNull, JSVal.vNull, some 5⟩] 1
        ⟨JSVal.vStr "t", JSVal.vStr "a", JSVal.vNum 2020, JSVal.vNum 5⟩).1[0]? = some c
        ∧ c.usuario_id = some 5 := by
  have h := update_frame [⟨1, JSVal.vNull, JSVal.vNull, JSVal.vNull, some 5⟩] 1
    ⟨JSVal.vStr "t", JSVal.vStr "a", JSVal.vNum 2020, JSVal.vNum 5⟩ (by decide)
  refine ⟨h.1, ?_⟩
  obtain ⟨c, hc, -, hcu, -, -⟩ :=
    h.2 0 ⟨1, JSVal.vNull, JSVal.vNull, JSVal.vNull, some 5⟩ (by decide)
  exact ⟨c, hc, hcu⟩

/-- C9: A falsy claimed owner id — the number 0, the empty string, null
or an absent field — is treated as absent at the interface: a delete
request with it is rejected with 400 (even when a matching book with
stored owner 0 exists, since the check precedes any lookup), and an
update request with it bypasses the ownership check and succeeds
unconditionally. -/
theorem falsy_owner_treated_as_absent (db : List Libro) (id : Int) (v t a y : JSVal)
    (hfalsy : truthy v = false) :
    deleteLibro db id v = (db, ⟨400, "Se requiere usuarioId para eliminar"⟩)
    ∧ putLibro db id ⟨t, a, y, v⟩ = (updateLibros db id t a y, ⟨200, "Libro actualizado"⟩)
    ∧ truthy (JSVal.vNum 0) = false ∧ truthy (JSVal.vStr "") = false := by
  refine ⟨?_, ?_, by decide, by decide⟩
  · simp [deleteLibro, hfalsy]
  · simp [putLibro, hfalsy]

/-- Witness for C9: with a book stored under owner 0, deleting with the
claimed owner number 0 is still rejected with 400, and updating with it
succeeds. -/
theorem falsy_owner_treated_as_absent_witness :
    deleteLibro [⟨1, JSVal.vNull, JSVal.vNull, JSVal.vNull, some 0⟩] 1 (JSVal.vNum 0)
      = ([⟨1, JSVal.vNull, JSVal.vNull, JSVal.vNull, some 0⟩],
         ⟨400, "Se requiere usuarioId para eliminar"⟩)
    ∧ (putLibro [⟨1, JSVal.vNull, JSVal.vNull, JSVal.vNull, some 0⟩] 1
        ⟨JSVal.vStr "t", JSVal.vStr "a", JSVal.vNum 2020, JSVal.vNum 0⟩).2.status = 200 := by
  have h := falsy_owner_treated_as_absent [⟨1, JSVal.vNull, JSVal.vNull, JSVal.vNull, some 0⟩]
    1 (JSVal.vNum 0) (JSVal.vStr "t") (JSVal.vStr "a") (JSVal.vNum 2020) (by decide)
  exact ⟨h.1, by rw [h.2.1]⟩

/-- C10: On a book whose stored owner is SQL NULL, the claimed owner
string "0" passes the ownership check of both mutation handlers
(`Number(null)` and `Number("0")` are both 0): the delete goes through
with 200 and the update answers 200; while any claimed value coercing to
a non-zero number is denied with 403 by both handlers, leaving the table
unchanged, although the book has no owner. -/
theorem null_owner_coercion_guard (db : List Libro) (id : Int) (b : Libro) (t a y : JSVal)
    (hfind : findLibro db id = some b) (hnull : b.usuario_id = none) :
    deleteLibro db id (JSVal.vStr "0") = (deleteLibros db id, ⟨200, "Libro eliminado"⟩)
    ∧ (putLibro db id ⟨t, a, y, JSVal.vStr "0"⟩).2 = ⟨200, "Libro actualizado"⟩
    ∧ (∀ v m, toNumber v = some m → m ≠ 0 →
        deleteLibro db id v = (db, ⟨403, "No autorizado para eliminar este libro"⟩)
        ∧ putLibro db id ⟨t, a, y, v⟩ = (db, ⟨403, "No autorizado para actualizar este libro"⟩)) := by
  have ht0 : truthy (JSVal.vStr "0") = true := by decide
  have hz : jsNumEq (toNumber (storedToJS b.usuario_id)) (toNumber (JSVal.vStr "0")) = true := by
    rw [hnull]; decide
  refine ⟨?_, ?_, fun v m hv hm => ?_⟩
  · simp [deleteLibro, ht0, hfind, hz]
  · simp [putLibro, ht0, hfind, hz]
  · have htv := truthy_of_toNumber_ne_zero v m hv hm
    have hne : jsNumEq (toNumber (storedToJS b.usuario_id)) (toNumber v) = false := by
      rw [hnull, hv]
      simp only [storedToJS, toNumber, jsNumEq]
      exact beq_eq_false_iff_ne.mpr (fun h => hm h.symm)
    constructor
    · simp [deleteLibro, htv, hfind, hne]
    · simp [putLibro, htv, hfind, hne]

/-- Witness for C10: on the ownerless book 1, the claimed string "0"
deletes it, while the claimed number 7 is denied. -/
theorem null_owner_coercion_guard_witness :
    deleteLibro [⟨1, JSVal.vNull, JSVal.vNull, JSVal.vNull, none⟩] 1 (JSVal.vStr "0")
      = ([], ⟨200, "Libro eliminado"⟩)
    ∧ deleteLibro [⟨1, JSVal.vNull, JSVal.vNull, JSVal.vNull, none⟩] 1 (JSVal.vNum 7)
      = ([⟨1, JSVal.vNull, JSVal.vNull, JSVal.vNull, none⟩],
         ⟨403, "No autorizado para eliminar este libro"⟩) := by
  have h := null_owner_coercion_guard [⟨1, JSVal.vNull, JSVal.vNull, JSVal.vNull, none⟩] 1
    ⟨1, JSVal.vNull, JSVal.vNull, JSVal.vNull, none⟩ JSVal.vNull JSVal.vNull JSVal.vNull
    (by decide) rfl
  refine ⟨?_, (h.2.2 (JSVal.vNum 7) 7 rfl (by decide)).1⟩
  rw [h.1]
  decide

end NodeCrud
